import Mathlib

/-!
Shallow embedding of the MARS multi-AI research orchestrator
(src/providers.py and src/researcher.py): the provider abstraction with its
CLI fallback, the fan-out batches of phase A and the debate rounds, the
phase-B round state machine, the consensus round with verification and
amendment, the extra phase, the final report lead selection, the checkpoint
gate, and orchestrator construction.

Network and subprocess calls are modelled by outcome oracles: a provider
carries two functions from the prompt to either the response text or the
raised error message.  Interactive input is modelled as an optional string
per decision point, with none standing for end-of-input or an interrupt.
-/

/-- Python sep.join(xs): joins a list of strings with a separator. -/
def joinSep (sep : String) : List String → String
  | [] => ""
  | [x] => x
  | x :: xs => x ++ sep ++ joinSep sep xs

/-- Python s.startswith(pre), on the character lists of the strings. -/
def pyStartswith (s pre : String) : Bool :=
  List.isPrefixOf pre.data s.data

/-- Python s.endswith(suf), on the character lists of the strings. -/
def pyEndswith (s suf : String) : Bool :=
  List.isSuffixOf suf.data s.data

/-- Python `a or b` for strings: b when a is empty, else a. -/
def pyOr (a b : String) : String := if a = "" then b else a

/-- Python s.strip(): drop whitespace from both ends, on character lists. -/
def pyStrip (s : String) : String :=
  String.mk (((s.data.dropWhile Char.isWhitespace).reverse.dropWhile
    Char.isWhitespace).reverse)

/-- Python s.lower(), on character lists. -/
def pyLower (s : String) : String :=
  String.mk (s.data.map Char.toLower)

/-- Outcome oracle for one backend: the primary API call (taking the prompt
and the deep-research flag) and the CLI fallback call, each returning either
the response text or the raised error message. -/
structure NetOracle where
  primaryF : String → Bool → Except String String
  cliF : String → Except String String

/-- An initialized provider (ClaudeProvider, GeminiProvider or GPTProvider):
the credential resolved at construction, the injected role text, and the two
call paths. -/
structure ProviderImpl where
  api_key : String
  role : String
  primaryF : String → Bool → Except String String
  cliF : String → Except String String

/-- Which call path a query takes. -/
inductive CallPath
  | apiPath
  | cliPath
deriving DecidableEq

/-- providers.py _resolve_key: a value of the form $\x7bNAME\x7d resolves to
the environment variable NAME, defaulting to the empty string when absent;
any other value is returned unchanged.  The Python slice key[2:-1] is
modelled on the character list of the key. -/
def resolve_key (env : String → Option String) (key : String) : String :=
  if pyStartswith key "$\x7b" && pyEndswith key "\x7d" then
    (env (String.mk ((key.data.drop 2).dropLast))).getD ""
  else key

/-- The query method shared by the three concrete providers: an empty
resolved credential routes straight to the CLI fallback, otherwise the
primary API path runs.  Returns the path taken with the call outcome. -/
def providerQuery (p : ProviderImpl) (prompt : String) (deep : Bool) :
    CallPath × Except String String :=
  if p.api_key = "" then (CallPath.cliPath, p.cliF prompt)
  else (CallPath.apiPath, p.primaryF prompt deep)

/-- AIProvider.query_with_fallback: run query; on any raised error fall back
to the CLI path, which may itself fail with no further fallback. -/
def query_with_fallback (p : ProviderImpl) (prompt : String) (deep : Bool) :
    Except String String :=
  match (providerQuery p prompt deep).2 with
  | Except.ok r => Except.ok r
  | Except.error _ => p.cliF prompt

/-- Boolean success test on a call outcome. -/
def exceptOk (x : Except String String) : Bool :=
  match x with
  | Except.ok _ => true
  | Except.error _ => false

/-- The per-provider configuration fields the core consumes. -/
structure ProviderConfig where
  enabled : Bool
  api_key : String
  role : String

/-- The names create_provider accepts. -/
def knownProvider (name : String) : Bool :=
  name == "claude" || name == "gemini" || name == "gpt"

/-- providers.py create_provider: an unknown name raises ValueError; a known
name constructs the provider, resolving the credential at construction. -/
def create_provider (env : String → Option String) (net : String → NetOracle)
    (name : String) (cfg : ProviderConfig) : Except String ProviderImpl :=
  if knownProvider name then
    Except.ok { api_key := resolve_key env cfg.api_key, role := cfg.role,
                primaryF := (net name).primaryF, cliF := (net name).cliF }
  else Except.error ("알 수 없는 프로바이더: " ++ name)

/-- Orchestrator.__init__ provider loop: disabled providers are skipped and a
create_provider failure is caught, logged and skipped.  The role set injects
a role text per provider name when one is defined. -/
def initProviders (env : String → Option String) (net : String → NetOracle)
    (roleOf : String → Option String) (provs : List (String × ProviderConfig)) :
    List (String × ProviderImpl) :=
  provs.filterMap (fun nc =>
    if nc.2.enabled then
      match create_provider env net nc.1
          (match roleOf nc.1 with
           | some r => { nc.2 with role := r }
           | none => nc.2) with
      | Except.ok p => some (nc.1, p)
      | Except.error _ => none
    else none)

/-- Orchestrator.__init__ tail: with no active provider a RuntimeError is
raised before any phase runs. -/
def orchestratorInit (env : String → Option String) (net : String → NetOracle)
    (roleOf : String → Option String) (provs : List (String × ProviderConfig)) :
    Except String (List (String × ProviderImpl)) :=
  let ai := initProviders env net roleOf provs
  if ai.isEmpty then Except.error "활성화된 AI 프로바이더가 없습니다."
  else Except.ok ai

/-- Orchestrator.__init__ round clamping: min(config debate_rounds, 5). -/
def clampRounds (n : Nat) : Nat := min n 5

/-- researcher.py main: the orchestrator is constructed first and the phase
driver run() is reached only when construction succeeded, so a construction
error yields no phase execution and no written file.  Construction itself
only creates the output directory and calls save() nowhere, so the files
written by a whole run are exactly the files the phases write, abstracted
here as a function from the active provider mapping to the written files. -/
def mainFiles (env : String → Option String) (net : String → NetOracle)
    (roleOf : String → Option String) (provs : List (String × ProviderConfig))
    (runPhases : List (String × ProviderImpl) → List (String × String)) :
    List (String × String) :=
  match orchestratorInit env net roleOf provs with
  | Except.error _ => []
  | Except.ok ai => runPhases ai

/-- One debate log record: round number, entry type string ("critique" or
"respond"), provider name and content. -/
structure DebateEntry where
  round : Nat
  etype : String
  provider : String
  content : String
deriving DecidableEq

/-- The accumulated orchestrator state that _save_state serializes. -/
structure SessionState where
  query : String
  ctx : String
  rs_name : String
  research : List (String × String)
  debate : List DebateEntry
  consensus : String
deriving DecidableEq

/-- Gate.ask: one line of input per phase checkpoint; none models
end-of-input or an interrupt, both of which are caught and treated as quit.
Returns "c" continue, "s" skip, "q" quit. -/
def Gate.ask (inp : Option String) : String :=
  let ch := match inp with
    | some s => pyLower (pyStrip s)
    | none => "q"
  if ch = "q" then "q" else if ch = "s" then "s" else "c"

/-- Gate.ask_round: one line of input per debate-round checkpoint; only quit
is recognized, anything else continues. -/
def Gate.ask_round (inp : Option String) : String :=
  let ch := match inp with
    | some s => pyLower (pyStrip s)
    | none => "q"
  if ch = "q" then "q" else "c"

/-- The per-provider research prompt of phaseA_research. -/
def researchPrompt (st : SessionState) (role : String) : String :=
  "너는 " ++ role ++ "이다.\n\n## 연구 주제\n" ++ st.query ++
  "\n\n## 추가 맥락\n" ++ pyOr st.ctx "(없음)" ++
  "\n\n## 요청\n너의 전문성을 최대한 발휘하여 심층 조사해라.\n포함할 내용:\n1. 현황 분석\n2. 핵심 발견사항 (근거 포함)\n3. 기회와 위험 요소\n4. 구체적 권장사항\n\n모든 주장에 근거를 포함해라.\n불확실한 부분은 명시적으로 \x27⚠️ 불확실:\x27 로 표기해라."

/-- The bracketed failure marker phaseA_research records for a provider
whose primary query and fallback both raised. -/
def failMarker (e : String) : String := "[조사 실패: " ++ e ++ "]"

/-- phaseA_research fan-out: one entry per active provider, the response
text on success and the bracketed failure marker when both call paths fail.
The function is total: no exception escapes the batch. -/
def researchBatch (ai : List (String × ProviderImpl)) (deep : Bool)
    (st : SessionState) : List (String × String) :=
  ai.map (fun np =>
    (np.1, match query_with_fallback np.2 (researchPrompt st np.2.role) deep with
           | Except.ok r => r
           | Except.error e => failMarker e))

/-- phaseA_research state update: the research record is filled from the
fan-out batch. -/
def phaseA_research (ai : List (String × ProviderImpl)) (deep : Bool)
    (st : SessionState) : SessionState :=
  { st with research := researchBatch ai deep st }

/-- The other-reports block of the round-1 critique prompt: every other
provider whose research entry is not a failure marker, truncated. -/
def critiqueOthers (rname : String → String) (st : SessionState)
    (name : String) : String :=
  joinSep "\n\n" ((st.research.filter
      (fun onr => onr.1 != name && !(pyStartswith onr.2 "["))).map
    (fun onr => "### " ++ onr.1 ++ " (" ++ rname onr.1 ++ ")\n" ++ onr.2.take 6000))

/-- The round-1 critique prompt of _round_critique. -/
def critiquePromptFor (rname : String → String) (st : SessionState)
    (name role : String) : String :=
  "너는 " ++ role ++ "이다.\n\n## 다른 AI 보고서\n" ++ critiqueOthers rname st name ++
  "\n\n## 너의 보고서\n" ++ (((st.research.lookup name).getD "").take 6000) ++
  "\n\n## 요청\n핵심 논점 5개 이상을 선정하고 각각 비평해라:\n\n### 논점 N: (제목)\n- **다른 AI 의견 요약**\n- **내 입장**: [동의]/[부분 동의]/[반대]/[대안]\n- **근거**: (구체적)\n\n근거 없는 의견 금지. 추가 논점 자유롭게 추가 가능."

/-- _round_critique fan-out: a provider whose call fails contributes no
debate entry at all (the exception is logged and swallowed). -/
def critiqueBatch (ai : List (String × ProviderImpl)) (rname : String → String)
    (st : SessionState) (rnd : Nat) : List DebateEntry :=
  ai.filterMap (fun np =>
    match query_with_fallback np.2 (critiquePromptFor rname st np.1 np.2.role) false with
    | Except.ok r => some { round := rnd, etype := "critique", provider := np.1, content := r }
    | Except.error _ => none)

/-- The debate entries a round-rnd respond prompt for a provider draws on:
exactly the previous round entries authored by other providers. -/
def respondRefs (debate : List DebateEntry) (rnd : Nat) (name : String) :
    List DebateEntry :=
  debate.filter (fun en => en.round == rnd - 1 && en.provider != name)

/-- The critiques block of the respond prompt, built from respondRefs with
per-entry truncation. -/
def respondCrits (rname : String → String) (debate : List DebateEntry)
    (rnd : Nat) (name : String) : String :=
  joinSep "\n\n" ((respondRefs debate rnd name).map
    (fun en => "### " ++ en.provider ++ " (" ++ rname en.provider ++ ")\n" ++
               en.content.take 5000))

/-- The round-rnd respond prompt of _round_respond. -/
def respondPromptFor (rname : String → String) (debate : List DebateEntry)
    (rnd : Nat) (name role : String) : String :=
  "너는 " ++ role ++ "이다.\n\n이전 라운드 비평:\n" ++
  pyOr (respondCrits rname debate rnd name) "(없음)" ++
  "\n\n## 요청\n각 논점에 응답:\n\n### 논점 N: (제목)\n**받은 비평**: (요약)\n**응답**: [수용]/[부분 수용]/[반박]\n- 수용 → 어떻게 수정하는지\n- 반박 → 왜 기존 의견이 타당한지 (추가 근거)\n\n모든 논점에 빠짐없이 응답."

/-- _round_respond fan-out: like the critique round, a failing provider
contributes no entry. -/
def respondBatch (ai : List (String × ProviderImpl)) (rname : String → String)
    (st : SessionState) (rnd : Nat) : List DebateEntry :=
  ai.filterMap (fun np =>
    match query_with_fallback np.2 (respondPromptFor rname st.debate rnd np.1 np.2.role) false with
    | Except.ok r => some { round := rnd, etype := "respond", provider := np.1, content := r }
    | Except.error _ => none)

/-- Lead selection of _round_consensus: the provider named claude when the
active mapping has one, else the first provider of the mapping. -/
def consensusLead (ai : List (String × ProviderImpl)) :
    Option (String × ProviderImpl) :=
  if (ai.map Prod.fst).contains "claude" then ai.find? (fun np => np.1 == "claude")
  else ai.head?

/-- The formatted debate history block of the consensus prompt. -/
def debateHistory (rname : String → String) (debate : List DebateEntry) : String :=
  joinSep "\n\n---\n\n" (debate.map (fun en =>
    "## R" ++ toString en.round ++ " — " ++ en.provider ++ " (" ++
    rname en.provider ++ ") [" ++ en.etype ++ "]\n" ++ en.content.take 4000))

/-- The consensus synthesis prompt of _round_consensus. -/
def consensusPrompt (rname : String → String) (debate : List DebateEntry) : String :=
  "3개 AI가 교차 토론한 결과를 공정하게 분석하여 정리해라.\n\n## 토론 기록\n" ++
  (debateHistory rname debate).take 30000 ++
  "\n\n## 출력 형식\n\n### PART 1: 합의 사항 (CONSENSUS)\n논점별:\n- **결론**\n- **합의 수준**: ⭐⭐⭐/⭐⭐/⭐\n- **근거 요약**\n- **조건/유보사항**\n\n### PART 2: 미합의 사항 (UNRESOLVED)\n- **대립 입장들**\n- **합의 실패 이유**\n- **잠정 추천안**"

/-- The verification prompt circulated to every non-lead provider. -/
def verifyPrompt (consensus : String) : String :=
  "아래 합의 결과가 공정한지 검증해라:\n\n" ++ consensus.take 8000 ++
  "\n\n1. 네 의견이 잘못 반영된 것?\n2. 분류가 적절한가?\n3. 빠진 논점?"

/-- The amendment prompt sent to the lead when verification feedback came
back; feedbacks are joined with the empty separator then truncated. -/
def amendPrompt (consensus : String) (feedbacks : List String) : String :=
  "원본 합의:\n" ++ consensus.take 8000 ++ "\n\n검증 피드백:\n" ++
  (joinSep "" feedbacks).take 6000 ++ "\n\n피드백을 반영하여 최종 수정해라."

/-- Result of one consensus round: the final consensus value, whether the
amendment call was made, and the artifact files written (name, content). -/
structure ConsensusOut where
  consensus : String
  amendCalled : Bool
  files : List (String × String)
deriving DecidableEq

/-- _round_consensus: the lead synthesizes the debate history (this call is
not guarded, so a lead failure escapes); every non-lead provider runs a
verification pass whose failure is swallowed; if any feedback came back the
lead produces one amended consensus (also unguarded) which overwrites the
synthesis, else the synthesis stands unchanged. -/
def round_consensus (ai : List (String × ProviderImpl)) (rname : String → String)
    (st : SessionState) (rnd : Nat) : Except String ConsensusOut :=
  match consensusLead ai with
  | none => Except.error "IndexError: list index out of range"
  | some lead =>
    match query_with_fallback lead.2 (consensusPrompt rname st.debate) false with
    | Except.error e => Except.error e
    | Except.ok consensus =>
      let cfile := ("round" ++ toString rnd ++ "-consensus.md",
                    "# 합의 결과 (Round " ++ toString rnd ++ ")\n\n" ++ consensus)
      let verifyResults := (ai.filter (fun np => np.1 != lead.1)).filterMap (fun np =>
        match query_with_fallback np.2 (verifyPrompt consensus) false with
        | Except.ok vr => some (np.1, vr)
        | Except.error _ => none)
      let vfiles := verifyResults.map (fun nv =>
        ("round" ++ toString rnd ++ "-" ++ nv.1 ++ "-verify.md",
         "# " ++ nv.1 ++ " 합의 검증\n\n" ++ nv.2))
      let feedbacks := verifyResults.map (fun nv => "### " ++ nv.1 ++ "\n" ++ nv.2)
      if feedbacks.isEmpty then
        Except.ok { consensus := consensus, amendCalled := false, files := cfile :: vfiles }
      else
        match query_with_fallback lead.2 (amendPrompt consensus feedbacks) false with
        | Except.ok final =>
          Except.ok { consensus := final, amendCalled := true,
                      files := cfile :: vfiles ++
                        [("consensus-final.md", "# 최종 합의 (검증 반영)\n\n" ++ final)] }
        | Except.error e => Except.error e

/-- The kind of debate round executed. -/
inductive RType
  | critique
  | respond
  | consensus
deriving DecidableEq

/-- The phaseB_debate round loop, iterating over the remaining round numbers
of range(1, rounds + 1).  Returns the executed round schedule (a round is
recorded when its step starts) together with the resulting state, or the
error that escaped.  Round 1 is always the critique round (this branch wins
even when it is also the last round); the last round R runs consensus and
breaks; every other round runs respond.  After a non-final round the round
gate runs, and quit short-circuits into consensus at the next round index
and breaks. -/
def phaseBLoop (ai : List (String × ProviderImpl)) (rname : String → String)
    (gate : Nat → Option String) (R : Nat) :
    SessionState → List Nat → List (Nat × RType) × Except String SessionState
  | st, [] => ([], Except.ok st)
  | st, rnd :: rest =>
    if rnd = 1 then
      let st1 := { st with debate := st.debate ++ critiqueBatch ai rname st rnd }
      if rnd = R then
        let next := phaseBLoop ai rname gate R st1 rest
        ((rnd, RType.critique) :: next.1, next.2)
      else if Gate.ask_round (gate rnd) = "q" then
        match round_consensus ai rname st1 (rnd + 1) with
        | Except.ok out => ([(rnd, RType.critique), (rnd + 1, RType.consensus)],
                            Except.ok { st1 with consensus := out.consensus })
        | Except.error e => ([(rnd, RType.critique), (rnd + 1, RType.consensus)],
                             Except.error e)
      else
        let next := phaseBLoop ai rname gate R st1 rest
        ((rnd, RType.critique) :: next.1, next.2)
    else if rnd = R then
      match round_consensus ai rname st rnd with
      | Except.ok out => ([(rnd, RType.consensus)],
                          Except.ok { st with consensus := out.consensus })
      | Except.error e => ([(rnd, RType.consensus)], Except.error e)
    else
      let st1 := { st with debate := st.debate ++ respondBatch ai rname st rnd }
      if Gate.ask_round (gate rnd) = "q" then
        match round_consensus ai rname st1 (rnd + 1) with
        | Except.ok out => ([(rnd, RType.respond), (rnd + 1, RType.consensus)],
                            Except.ok { st1 with consensus := out.consensus })
        | Except.error e => ([(rnd, RType.respond), (rnd + 1, RType.consensus)],
                             Except.error e)
      else
        let next := phaseBLoop ai rname gate R st1 rest
        ((rnd, RType.respond) :: next.1, next.2)

/-- phaseB_debate: the round loop over rounds 1..R. -/
def phaseB_debate (ai : List (String × ProviderImpl)) (rname : String → String)
    (gate : Nat → Option String) (R : Nat) (st : SessionState) :
    List (Nat × RType) × Except String SessionState :=
  phaseBLoop ai rname gate R st (List.range' 1 R)

/-- The focused-analysis prompt of _focused. -/
def focusedPrompt (topic consensus : String) : String :=
  "논점 \x27" ++ topic ++ "\x27에 대해 집중 분석해라.\n\n기존 합의:\n" ++
  consensus.take 4000 ++
  "\n\n가능한 모든 선택지의 장단점을 비교하고 조건부 결론을 제시해라."

/-- The synthesis prompt of _focused over the collected opinions. -/
def synPrompt (topic : String) (views : String) : String :=
  "\x27" ++ topic ++ "\x27에 대한 의견 종합:\n\n" ++ views ++ "\n\n결론을 내려라."

/-- Lead selection of _focused: always the first provider of the mapping. -/
def focusedLead (ai : List (String × ProviderImpl)) :
    Option (String × ProviderImpl) :=
  ai.head?

/-- _focused: collect every provider opinion on the topic (failures
swallowed), then an unguarded lead synthesis call.  Only artifact files are
produced; no session-state field is assigned. -/
def focused (ai : List (String × ProviderImpl)) (st : SessionState)
    (topic : String) (idx : Nat) : Except String (List (String × String)) :=
  let results := ai.filterMap (fun np =>
    match query_with_fallback np.2 (focusedPrompt topic st.consensus) false with
    | Except.ok r => some (np.1, r)
    | Except.error _ => none)
  let files := results.map (fun nr =>
    ("extra-" ++ toString idx ++ "-" ++ nr.1 ++ ".md",
     "# 추가 토론 " ++ toString idx ++ ": " ++ topic ++ " — " ++ nr.1 ++ "\n\n" ++ nr.2))
  let views := joinSep "\n\n---\n\n" (results.map
    (fun nr => "## " ++ nr.1 ++ "\n" ++ nr.2.take 4000))
  match focusedLead ai with
  | none => Except.error "IndexError: list index out of range"
  | some lead =>
    match query_with_fallback lead.2 (synPrompt topic views) false with
    | Except.error e => Except.error e
    | Except.ok syn =>
      Except.ok (files ++ [("extra-" ++ toString idx ++ "-synthesis.md",
        "# 추가 토론 " ++ toString idx ++ " 종합: " ++ topic ++ "\n\n" ++ syn)])

/-- Result of the extra phase: the session state it ends with, the snapshots
passed to _save_state during the phase, and the artifact files written. -/
structure ExtraOut where
  state : SessionState
  persisted : List SessionState
  artifacts : List (String × String)
deriving DecidableEq

/-- The phaseC_extra topic loop: each topic runs _focused, then the state is
persisted; between topics the round gate runs and quit breaks the loop.  An
error escaping _focused escapes the phase. -/
def phaseCLoop (ai : List (String × ProviderImpl)) (st : SessionState)
    (gate : Nat → Option String) (total : Nat) :
    List String → Nat → Except String (List SessionState × List (String × String))
  | [], _ => Except.ok ([], [])
  | t :: rest, i =>
    match focused ai st t i with
    | Except.error e => Except.error e
    | Except.ok fs =>
      if i < total then
        if Gate.ask_round (gate i) = "q" then Except.ok ([st], fs)
        else
          match phaseCLoop ai st gate total rest (i + 1) with
          | Except.error e => Except.error e
          | Except.ok pr => Except.ok (st :: pr.1, fs ++ pr.2)
      else Except.ok ([st], fs)

/-- phaseC_extra over a given topic list (the topics are read interactively
before the loop). -/
def phaseC_extra (ai : List (String × ProviderImpl)) (st : SessionState)
    (topics : List String) (gate : Nat → Option String) :
    Except String ExtraOut :=
  match phaseCLoop ai st gate topics.length topics 1 with
  | Except.error e => Except.error e
  | Except.ok pr => Except.ok { state := st, persisted := pr.1, artifacts := pr.2 }

/-- Lead selection of phaseD_report: textually the same expression as in
_round_consensus. -/
def reportLead (ai : List (String × ProviderImpl)) :
    Option (String × ProviderImpl) :=
  if (ai.map Prod.fst).contains "claude" then ai.find? (fun np => np.1 == "claude")
  else ai.head?

/-- The research summary block of the final report prompt: non-failed
research entries, truncated per entry. -/
def reportSummary (rname : String → String) (st : SessionState) : String :=
  joinSep "\n\n---\n\n" ((st.research.filter (fun nr => !(pyStartswith nr.2 "["))).map
    (fun nr => "## " ++ nr.1 ++ " (" ++ rname nr.1 ++ ")\n" ++ nr.2.take 5000))

/-- The final report prompt of phaseD_report. -/
def reportPrompt (rname : String → String) (st : SessionState) : String :=
  "# 최종 연구 보고서 작성\n\n## 원본 질문\n" ++ st.query ++
  "\n\n## 추가 맥락\n" ++ pyOr st.ctx "(없음)" ++
  "\n\n## 개별 연구 요약\n" ++ (reportSummary rname st).take 10000 ++
  "\n\n## 토론 합의\n" ++ st.consensus.take 8000 ++
  "\n\n## 구조\n1. **요약 (Executive Summary)** — 핵심 발견 3~5개\n2. **상세 분석** — 합의 결론 중심, 근거 포함\n3. **대안과 트레이드오프** — 미합의 사항의 조건부 결론\n4. **권장사항** — 우선순위 포함 액션 아이템\n5. **향후 조사 필요 사항**\n\n모호한 표현 금지. 모든 결론에 근거 포함."

/-- phaseD_report: one unguarded synthesis call by the report lead. -/
def phaseD_report (ai : List (String × ProviderImpl)) (rname : String → String)
    (st : SessionState) : Except String String :=
  match reportLead ai with
  | none => Except.error "IndexError: list index out of range"
  | some lead => query_with_fallback lead.2 (reportPrompt rname st) false

/-- A user who always presses Enter at every round gate. -/
def allProceed : Nat → Option String := fun _ => some ""

/-- A user who presses q at round gate r and Enter everywhere else. -/
def gateQuitAt (r : Nat) : Nat → Option String :=
  fun i => if i = r then some "q" else some ""

/-- The expected respond-round span of a debate schedule: n consecutive
respond rounds starting at round lo. -/
def respondListFrom : Nat → Nat → List (Nat × RType)
  | _, 0 => []
  | lo, n + 1 => (lo, RType.respond) :: respondListFrom (lo + 1) n

/-- A provider whose primary and fallback calls always succeed. -/
def demoOk : ProviderImpl :=
  { api_key := "k", role := "연구 전문가",
    primaryF := fun _ _ => Except.ok "OK", cliF := fun _ => Except.ok "OK" }

/-- A provider whose primary and fallback calls always fail. -/
def demoFail : ProviderImpl :=
  { api_key := "k", role := "연구 전문가",
    primaryF := fun _ _ => Except.error "API down",
    cliF := fun _ => Except.error "CLI down" }

/-- A display-name function that is the identity (the default when a role
set has no entry for the name). -/
def demoRname : String → String := fun n => n

/-- A concrete session state after a successful research phase. -/
def stB : SessionState :=
  { query := "질문", ctx := "", rs_name := "general",
    research := [("claude", "보고서 A"), ("gemini", "보고서 B")],
    debate := [], consensus := "" }

/-- An environment with no variables set. -/
def envNone : String → Option String := fun _ => none

/-- A network oracle whose CLI paths fail and primary paths succeed. -/
def netEx : String → NetOracle :=
  fun _ => { primaryF := fun _ _ => Except.ok "API OK",
             cliF := fun _ => Except.error "CLI down" }

/-- A provider configuration using environment indirection for the key. -/
def cfgEx : ProviderConfig :=
  { enabled := true, api_key := "$\x7bFOO_KEY\x7d", role := "역할" }

/-- An active mapping whose lead always succeeds and whose other provider
always fails. -/
def aiMix : List (String × ProviderImpl) :=
  [("claude", demoOk), ("gemini", demoFail)]

/-- A concrete round-1 critique entry by claude. -/
def entC : DebateEntry :=
  { round := 1, etype := "critique", provider := "claude", content := "비평 C" }

/-- A concrete round-1 critique entry by gemini. -/
def entG : DebateEntry :=
  { round := 1, etype := "critique", provider := "gemini", content := "비평 G" }

/-- A concrete two-entry debate log after round 1. -/
def debEx : List DebateEntry := [entC, entG]

/-- A disabled provider configuration. -/
def cfgDisabled : ProviderConfig :=
  { enabled := false, api_key := "k", role := "역할" }

/-- The result of a one-topic extra phase over the always-succeeding
provider: unchanged state, one persisted snapshot, two artifact files. -/
def extraOutEx : ExtraOut :=
  { state := stB, persisted := [stB],
    artifacts := [("extra-1-claude.md", "# 추가 토론 1: 추가 주제 — claude\n\nOK"),
                  ("extra-1-synthesis.md", "# 추가 토론 1 종합: 추가 주제\n\nOK")] }

/-!  Theorems. -/

/-- The bracketed failure marker always starts with an opening bracket. -/
theorem failMarker_pyStartswith (e : String) :
    pyStartswith (failMarker e) "[" = true := by
  obtain ⟨l⟩ := e
  rfl

/-- An empty line proceeds at the round gate. -/
theorem ask_round_empty : Gate.ask_round (some "") = "c" := rfl

/-- A q line quits at the round gate. -/
theorem ask_round_q : Gate.ask_round (some "q") = "q" := rfl

/-- Every element of a respond span is a respond round below lo + n. -/
theorem respondListFrom_mem (n : Nat) : ∀ (lo : Nat) (e : Nat × RType),
    e ∈ respondListFrom lo n → lo ≤ e.1 ∧ e.1 < lo + n ∧ e.2 = RType.respond := by
  induction n with
  | zero => intro lo e h; cases h
  | succ k ih =>
    intro lo e h
    rw [respondListFrom] at h
    rcases List.mem_cons.mp h with rfl | h
    · exact ⟨Nat.le_refl _, by omega, rfl⟩
    · have := ih (lo + 1) e h
      exact ⟨by omega, by omega, this.2.2⟩

/-- An environment reference to an unset variable resolves to the empty
string at construction, without raising. -/
theorem resolve_key_env_missing (env : String → Option String) (nm : String)
    (h : env nm = none) : resolve_key env ("$\x7b" ++ nm ++ "\x7d") = "" := by
  have hs : pyStartswith ("$\x7b" ++ nm ++ "\x7d") "$\x7b" = true := by
    simp only [pyStartswith, String.data_append, List.isPrefixOf_iff_prefix]
    show "$\x7b".data <+: "$\x7b".data ++ (nm.data ++ "\x7d".data)
    exact List.prefix_append _ _
  have he : pyEndswith ("$\x7b" ++ nm ++ "\x7d") "\x7d" = true := by
    simp only [pyEndswith, String.data_append, List.isSuffixOf_iff_suffix]
    exact ⟨"$\x7b".data ++ nm.data, by simp⟩
  have hm : String.mk (((("$\x7b" ++ nm ++ "\x7d").data).drop 2).dropLast) = nm := by
    simp only [String.data_append]
    show String.mk (List.dropLast (List.drop 2
      (('$' :: '\x7b' :: []) ++ nm.data ++ ('\x7d' :: [])))) = nm
    simp
  unfold resolve_key
  rw [hs, he]
  simp only [Bool.and_self, if_true]
  rw [hm, h]
  rfl

/-- C6: a configured api_key of the form $\x7bNAME\x7d with the environment
variable NAME unset resolves to the empty string at provider construction
without raising, and a query on the constructed provider routes to the CLI
fallback path instead of attempting the primary API path or raising. -/
theorem c6_env_indirection_fallback (env : String → Option String)
    (net : String → NetOracle) (cfg : ProviderConfig) (nm prompt : String)
    (deep : Bool) (h1 : env nm = none)
    (h2 : cfg.api_key = "$\x7b" ++ nm ++ "\x7d") :
    (create_provider env net "claude" cfg).map
        (fun p => (p.api_key, providerQuery p prompt deep))
      = Except.ok ("", (CallPath.cliPath, (net "claude").cliF prompt)) := by
  have hk : resolve_key env cfg.api_key = "" := by
    rw [h2]
    exact resolve_key_env_missing env nm h1
  simp [create_provider, knownProvider, Except.map, hk, providerQuery]

/-- C6 witness: concrete unset variable FOO_KEY. -/
theorem c6_env_indirection_fallback_witness :
    (create_provider envNone netEx "claude" cfgEx).map
        (fun p => (p.api_key, providerQuery p "프롬프트" false))
      = Except.ok ("", (CallPath.cliPath, (netEx "claude").cliF "프롬프트")) :=
  c6_env_indirection_fallback envNone netEx cfgEx "FOO_KEY" "프롬프트" false rfl rfl

/-- C8: at a gate decision point, a stripped lowercased q aborts at both
gates, s skips at the phase gate but merely proceeds at a round gate, empty
or any other input proceeds, and end-of-input or an interrupt (modelled as
none) degrades into the abort outcome without raising. -/
theorem c8_gate_decision (s : String) :
    (pyLower (pyStrip s) = "q" →
        Gate.ask (some s) = "q" ∧ Gate.ask_round (some s) = "q")
    ∧ (pyLower (pyStrip s) = "s" →
        Gate.ask (some s) = "s" ∧ Gate.ask_round (some s) = "c")
    ∧ (pyLower (pyStrip s) ≠ "q" → pyLower (pyStrip s) ≠ "s" →
        Gate.ask (some s) = "c")
    ∧ (pyLower (pyStrip s) ≠ "q" → Gate.ask_round (some s) = "c")
    ∧ Gate.ask_round (some s) ≠ "s"
    ∧ Gate.ask none = "q" ∧ Gate.ask_round none = "q" := by
  refine ⟨?_, ?_, ?_, ?_, ?_, rfl, rfl⟩
  · intro h
    constructor
    · simp [Gate.ask, h]
    · simp [Gate.ask_round, h]
  · intro h
    constructor
    · simp [Gate.ask, h]
    · simp [Gate.ask_round, h]
  · intro h1 h2
    simp [Gate.ask, h1, h2]
  · intro h1
    simp [Gate.ask_round, h1]
  · unfold Gate.ask_round
    split <;> (simp only []; split <;> simp)

/-- C8 witness: whitespace-padded uppercase Q aborts at both gates, S skips
only at the phase gate. -/
theorem c8_gate_decision_witness :
    (Gate.ask (some " Q ") = "q" ∧ Gate.ask_round (some " Q ") = "q")
    ∧ (Gate.ask (some "S") = "s" ∧ Gate.ask_round (some "S") = "c") :=
  ⟨(c8_gate_decision " Q ").1 (by decide),
   (c8_gate_decision "S").2.1 (by decide)⟩

/-- C9: the round-rnd respond prompt construction for a provider draws on
exactly the debate entries of round rnd - 1 authored by other providers, and
never on an entry of round ≥ rnd. -/
theorem c9_respond_refs (debate : List DebateEntry) (rnd : Nat) (name : String)
    (h : 2 ≤ rnd) :
    (∀ en ∈ respondRefs debate rnd name,
        en.round = rnd - 1 ∧ en.provider ≠ name ∧ en.round < rnd)
    ∧ (∀ en ∈ debate, en.round = rnd - 1 → en.provider ≠ name →
        en ∈ respondRefs debate rnd name) := by
  constructor
  · intro en hm
    rw [respondRefs, List.mem_filter] at hm
    obtain ⟨-, hp⟩ := hm
    simp only [Bool.and_eq_true, beq_iff_eq, bne_iff_ne, ne_eq] at hp
    obtain ⟨h1, h2⟩ := hp
    exact ⟨h1, h2, by omega⟩
  · intro en hm h1 h2
    rw [respondRefs, List.mem_filter]
    refine ⟨hm, ?_⟩
    simp only [Bool.and_eq_true, beq_iff_eq, bne_iff_ne, ne_eq]
    exact ⟨h1, h2⟩

/-- C9 witness: in a concrete round-2 respond construction for claude, the
round-1 critique by gemini is drawn on. -/
theorem c9_respond_refs_witness : entG ∈ respondRefs debEx 2 "claude" :=
  (c9_respond_refs debEx 2 "claude" (by decide)).2 entG (by decide) rfl
    (by decide)

/-- C5: when the lead synthesis succeeds and the verification pass yields no
feedback (every non-lead verification call fails, or there is no non-lead
provider), the consensus round stores the pre-verification synthesis
unchanged and never makes the amendment call. -/
theorem c5_consensus_no_feedback (ai : List (String × ProviderImpl))
    (rname : String → String) (st : SessionState) (rnd : Nat)
    (lead : String × ProviderImpl) (c : String)
    (h1 : consensusLead ai = some lead)
    (h2 : query_with_fallback lead.2 (consensusPrompt rname st.debate) false
            = Except.ok c)
    (h3 : ∀ np ∈ ai, np.1 ≠ lead.1 →
        exceptOk (query_with_fallback np.2 (verifyPrompt c) false) = false) :
    (round_consensus ai rname st rnd).map (fun o => (o.consensus, o.amendCalled))
      = Except.ok (c, false) := by
  have hv : ((ai.filter (fun np => np.1 != lead.1)).filterMap (fun np =>
      match query_with_fallback np.2 (verifyPrompt c) false with
      | Except.ok vr => some (np.1, vr)
      | Except.error _ => none)) = [] := by
    rw [List.filterMap_eq_nil_iff]
    intro np hnp
    rw [List.mem_filter] at hnp
    have hne : np.1 ≠ lead.1 := by
      have h4 := hnp.2
      simpa [bne_iff_ne] using h4
    have h5 := h3 np hnp.1 hne
    cases hq : query_with_fallback np.2 (verifyPrompt c) false with
    | ok vr => rw [hq] at h5; simp [exceptOk] at h5
    | error e => rfl
  unfold round_consensus
  rw [h1]
  simp only []
  rw [h2]
  simp only [hv, List.map_nil, List.isEmpty_nil, if_true, Except.map]

/-- C5 witness: lead claude succeeds, gemini verification fails. -/
theorem c5_consensus_no_feedback_witness :
    (round_consensus aiMix demoRname stB 2).map (fun o => (o.consensus, o.amendCalled))
      = Except.ok ("OK", false) := by
  refine c5_consensus_no_feedback aiMix demoRname stB 2 ("claude", demoOk) "OK" rfl rfl ?_
  intro np hnp hne
  rcases List.mem_cons.mp hnp with rfl | hnp
  · exact absurd rfl hne
  · rcases List.mem_cons.mp hnp with rfl | hnp
    · rfl
    · cases hnp

/-- C4 counterexample: with gemini configured first and claude present in
the active mapping, the consensus-round lead is claude, not the
first-configured provider gemini. -/
theorem c4_lead_counterexample :
    (consensusLead [("gemini", demoOk), ("claude", demoOk)]).map Prod.fst
        = some "claude"
    ∧ ([("gemini", demoOk), ("claude", demoOk)].head?).map Prod.fst
        = some "gemini" :=
  ⟨rfl, rfl⟩

/-- C4 amended: in the consensus round and the final report the designated
lead is the provider named claude whenever the active mapping contains one,
else the first provider of the mapping; extra-topic synthesis always takes
the first provider of the mapping. -/
theorem c4_lead_selection (ai : List (String × ProviderImpl)) :
    ((ai.map Prod.fst).contains "claude" = true →
        (consensusLead ai).map Prod.fst = some "claude"
        ∧ (reportLead ai).map Prod.fst = some "claude")
    ∧ ((ai.map Prod.fst).contains "claude" = false →
        consensusLead ai = ai.head? ∧ reportLead ai = ai.head?)
    ∧ focusedLead ai = ai.head? := by
  refine ⟨?_, ?_, rfl⟩
  · intro hc
    have hfind : (ai.find? (fun np => np.1 == "claude")).map Prod.fst
        = some "claude" := by
      have hmem : "claude" ∈ ai.map Prod.fst := by
        have := List.elem_iff.mp hc
        exact this
      obtain ⟨np, hnp, hfst⟩ := List.mem_map.mp hmem
      have hsome : (ai.find? (fun np => np.1 == "claude")).isSome := by
        rw [List.find?_isSome]
        exact ⟨np, hnp, by simp [hfst]⟩
      obtain ⟨lead, hlead⟩ := Option.isSome_iff_exists.mp hsome
      have hp := List.find?_some hlead
      rw [hlead]
      have hl : lead.1 = "claude" := by simpa [beq_iff_eq] using hp
      simp [hl]
    constructor
    · rw [consensusLead, if_pos hc]
      exact hfind
    · rw [reportLead, if_pos hc]
      exact hfind
  · intro hc
    constructor
    · rw [consensusLead, hc]
      simp
    · rw [reportLead, hc]
      simp

/-- C4 witness for the amended statement: a mapping with claude second, and
one without claude. -/
theorem c4_lead_selection_witness :
    ((consensusLead [("gemini", demoOk), ("claude", demoOk)]).map Prod.fst
        = some "claude"
      ∧ (reportLead [("gemini", demoOk), ("claude", demoOk)]).map Prod.fst
        = some "claude")
    ∧ (consensusLead [("gemini", demoOk)] = [("gemini", demoOk)].head?
      ∧ reportLead [("gemini", demoOk)] = [("gemini", demoOk)].head?)
    ∧ focusedLead [("gemini", demoOk)] = [("gemini", demoOk)].head? :=
  ⟨(c4_lead_selection [("gemini", demoOk), ("claude", demoOk)]).1 rfl,
   (c4_lead_selection [("gemini", demoOk)]).2.1 rfl,
   (c4_lead_selection [("gemini", demoOk)]).2.2⟩

/-- The research batch keys are exactly the active provider names, in
order. -/
theorem researchBatch_keys (ai : List (String × ProviderImpl)) (deep : Bool)
    (st : SessionState) :
    (researchBatch ai deep st).map Prod.fst = ai.map Prod.fst := by
  simp [researchBatch, List.map_map, Function.comp]

/-- When no successful research answer starts with an opening bracket, the
failure-marked entries of the research batch are in bijection with the
providers whose both call paths failed. -/
theorem researchBatch_fail_count (deep : Bool) (st : SessionState) :
    ∀ ai : List (String × ProviderImpl),
    (∀ np ∈ ai, ∀ t,
        query_with_fallback np.2 (researchPrompt st np.2.role) deep = Except.ok t →
        pyStartswith t "[" = false) →
    ((researchBatch ai deep st).filter (fun nv => pyStartswith nv.2 "[")).length
      = (ai.filter (fun np =>
          !(exceptOk (query_with_fallback np.2 (researchPrompt st np.2.role) deep)))).length := by
  intro ai
  induction ai with
  | nil => intro _; rfl
  | cons np rest ih =>
    intro hok
    have htl : ∀ np2 ∈ rest, ∀ t,
        query_with_fallback np2.2 (researchPrompt st np2.2.role) deep = Except.ok t →
        pyStartswith t "[" = false :=
      fun np2 h2 t ht => hok np2 (List.mem_cons_of_mem _ h2) t ht
    have hrec := ih htl
    simp only [researchBatch, List.map_cons] at hrec ⊢
    cases hq : query_with_fallback np.2 (researchPrompt st np.2.role) deep with
    | ok t =>
      have hf : pyStartswith t "[" = false := hok np (List.mem_cons_self _ _) t hq
      simp [List.filter_cons, hq, hf, exceptOk, hrec]
    | error e =>
      simp [List.filter_cons, hq, failMarker_pyStartswith, exceptOk, hrec]

/-- The critique batch records one entry per provider whose call succeeded
and none for a failing provider. -/
theorem critiqueBatch_length (rname : String → String) (st : SessionState)
    (rnd : Nat) : ∀ ai : List (String × ProviderImpl),
    (critiqueBatch ai rname st rnd).length
      = (ai.filter (fun np =>
          exceptOk (query_with_fallback np.2 (critiquePromptFor rname st np.1 np.2.role) false))).length := by
  intro ai
  induction ai with
  | nil => rfl
  | cons np rest ih =>
    simp only [critiqueBatch, List.filterMap_cons] at ih ⊢
    cases hq : query_with_fallback np.2 (critiquePromptFor rname st np.1 np.2.role) false with
    | ok t => simp [List.filter_cons, hq, exceptOk, ih]
    | error e => simp [List.filter_cons, hq, exceptOk, ih]

/-- C1 counterexample: a critique fan-out batch over one provider whose both
call paths fail produces an empty per-batch result set: no entry for the
failing provider and no failure marker, instead of the one marked entry the
claim requires for every fan-out batch. -/
theorem c1_fanout_counterexample :
    (critiqueBatch [("claude", demoFail)] demoRname stB 1).length
      ≠ ([("claude", demoFail)] : List (String × ProviderImpl)).length := by
  decide

/-- C1 amended: the research fan-out batch over N providers of which k fail
has exactly N entries keyed by provider name of which exactly k carry the
bracketed failure marker (assuming no genuine answer starts with a bracket,
the code's own success test), while the critique fan-out batch records only
the N - k successful providers and no marker; both batches are total
functions, so no exception escapes to the caller. -/
theorem c1_fanout_batches (ai : List (String × ProviderImpl)) (deep : Bool)
    (st : SessionState) (rname : String → String) (rnd : Nat)
    (hok : ∀ np ∈ ai, ∀ t,
        query_with_fallback np.2 (researchPrompt st np.2.role) deep = Except.ok t →
        pyStartswith t "[" = false) :
    (researchBatch ai deep st).map Prod.fst = ai.map Prod.fst
    ∧ ((researchBatch ai deep st).filter (fun nv => pyStartswith nv.2 "[")).length
        = (ai.filter (fun np =>
            !(exceptOk (query_with_fallback np.2 (researchPrompt st np.2.role) deep)))).length
    ∧ (critiqueBatch ai rname st rnd).length
        = (ai.filter (fun np =>
            exceptOk (query_with_fallback np.2 (critiquePromptFor rname st np.1 np.2.role) false))).length :=
  ⟨researchBatch_keys ai deep st,
   researchBatch_fail_count deep st ai hok,
   critiqueBatch_length rname st rnd ai⟩

/-- C1 witness: one always-failing provider; the research batch marks it,
the critique batch drops it. -/
theorem c1_fanout_batches_witness :
    (researchBatch [("claude", demoFail)] false stB).map Prod.fst
        = [("claude", demoFail)].map Prod.fst
    ∧ ((researchBatch [("claude", demoFail)] false stB).filter
          (fun nv => pyStartswith nv.2 "[")).length
        = ([("claude", demoFail)].filter (fun np =>
            !(exceptOk (query_with_fallback np.2 (researchPrompt stB np.2.role) false)))).length
    ∧ (critiqueBatch [("claude", demoFail)] demoRname stB 1).length
        = ([("claude", demoFail)].filter (fun np =>
            exceptOk (query_with_fallback np.2 (critiquePromptFor demoRname stB np.1 np.2.role) false))).length := by
  refine c1_fanout_batches [("claude", demoFail)] false stB demoRname 1 ?_
  intro np hnp t ht
  rcases List.mem_cons.mp hnp with rfl | hnp
  · rw [show query_with_fallback ("claude", demoFail).2
        (researchPrompt stB ("claude", demoFail).2.role) false
        = Except.error "CLI down" from rfl] at ht
    cases ht
  · cases hnp

/-- On a round list starting at a round ≥ 2 and ending exactly at R, a user
who always proceeds gets respond rounds up to R - 1 and consensus at R. -/
theorem phaseBLoop_allProceed (ai : List (String × ProviderImpl))
    (rname : String → String) (R : Nat) :
    ∀ (m rnd : Nat) (st : SessionState), 2 ≤ rnd → rnd + m = R + 1 → 1 ≤ m →
    (phaseBLoop ai rname allProceed R st (List.range' rnd m)).1
      = respondListFrom rnd (m - 1) ++ [(R, RType.consensus)] := by
  intro m
  induction m with
  | zero => intro rnd st h1 h2 h3; omega
  | succ k ih =>
    intro rnd st h1 h2 h3
    rw [List.range'_succ, phaseBLoop]
    rw [if_neg (by omega : ¬ rnd = 1)]
    by_cases hR : rnd = R
    · have hk : k = 0 := by omega
      subst hk
      rw [if_pos hR]
      cases hc : round_consensus ai rname st rnd <;>
        simp [hc, hR, respondListFrom]
    · rw [if_neg hR]
      have hgate : ¬ Gate.ask_round (allProceed rnd) = "q" := by
        rw [show Gate.ask_round (allProceed rnd) = "c" from ask_round_empty]
        simp
      rw [if_neg hgate]
      obtain ⟨k2, rfl⟩ : ∃ k2, k = k2 + 1 := ⟨k - 1, by omega⟩
      have ih2 := ih (rnd + 1)
        { st with debate := st.debate ++ respondBatch ai rname st rnd }
        (by omega) (by omega) (by omega)
      simp only [ih2]
      rw [show k2 + 1 + 1 - 1 = k2 + 1 from by omega, respondListFrom]
      simp

/-- C2 counterexample: with a single configured debate round, round 1 is the
critique round and no consensus round is ever executed. -/
theorem c2_single_round_counterexample :
    (phaseB_debate [("claude", demoOk)] demoRname allProceed (clampRounds 1) stB).1
      = [(1, RType.critique)] := by
  decide

/-- C2 amended: for a configured round count clamped to R = min(c, 5) with
R ≥ 2 and a user who always proceeds, the debate executes round 1 as
critique, rounds 2..R-1 as respond, and round R as consensus, the final
round; when R = 1 the single executed round is a critique round and no
consensus round runs. -/
theorem c2_debate_schedule (ai : List (String × ProviderImpl))
    (rname : String → String) (st : SessionState) (c : Nat)
    (h : 2 ≤ clampRounds c) :
    (phaseB_debate ai rname allProceed (clampRounds c) st).1
      = (1, RType.critique) :: respondListFrom 2 (clampRounds c - 2)
          ++ [(clampRounds c, RType.consensus)] := by
  set R := clampRounds c with hRdef
  unfold phaseB_debate
  have h1 : List.range' 1 R = 1 :: List.range' 2 (R - 1) := by
    rw [show R = (R - 1) + 1 from by omega, List.range'_succ]
    simp
  rw [h1, phaseBLoop]
  rw [if_pos rfl, if_neg (by omega : ¬ (1 : Nat) = R)]
  have hgate : ¬ Gate.ask_round (allProceed 1) = "q" := by
    rw [show Gate.ask_round (allProceed 1) = "c" from ask_round_empty]
    simp
  rw [if_neg hgate]
  have ih2 := phaseBLoop_allProceed ai rname R (R - 1) 2
    { st with debate := st.debate ++
        critiqueBatch ai rname st 1 }
    (by omega) (by omega) (by omega)
  simp only [ih2]
  rw [show R - 1 - 1 = R - 2 from by omega]
  rfl

/-- C2 witness: three configured rounds give critique, respond, consensus. -/
theorem c2_debate_schedule_witness :
    (phaseB_debate [("claude", demoOk)] demoRname allProceed (clampRounds 3) stB).1
      = (1, RType.critique) :: respondListFrom 2 (clampRounds 3 - 2)
          ++ [(clampRounds 3, RType.consensus)] :=
  c2_debate_schedule [("claude", demoOk)] demoRname stB 3 (by decide)

/-- On a round list starting at a round in [2, r] and ending exactly at R,
a user who quits at round gate r gets respond rounds up to r and consensus
at round r + 1. -/
theorem phaseBLoop_quitAt (ai : List (String × ProviderImpl))
    (rname : String → String) (R r : Nat) (hr : r < R) :
    ∀ (m rnd : Nat) (st : SessionState), 2 ≤ rnd → rnd + m = R + 1 → rnd ≤ r →
    (phaseBLoop ai rname (gateQuitAt r) R st (List.range' rnd m)).1
      = respondListFrom rnd (r - rnd + 1) ++ [(r + 1, RType.consensus)] := by
  intro m
  induction m with
  | zero => intro rnd st h1 h2 h3; omega
  | succ k ih =>
    intro rnd st h1 h2 h3
    rw [List.range'_succ, phaseBLoop]
    rw [if_neg (by omega : ¬ rnd = 1), if_neg (by omega : ¬ rnd = R)]
    by_cases hq : rnd = r
    · subst hq
      have hgate : Gate.ask_round (gateQuitAt rnd rnd) = "q" := by
        rw [show gateQuitAt rnd rnd = some "q" from by simp [gateQuitAt]]
        exact ask_round_q
      rw [if_pos hgate]
      cases hc : round_consensus ai rname
          { st with debate := st.debate ++ respondBatch ai rname st rnd }
          (rnd + 1) <;>
        simp [hc, show rnd - rnd + 1 = 1 from by omega, respondListFrom]
    · have hgate : ¬ Gate.ask_round (gateQuitAt r rnd) = "q" := by
        rw [show gateQuitAt r rnd = some "" from by simp [gateQuitAt, hq]]
        rw [ask_round_empty]
        simp
      rw [if_neg hgate]
      have ih2 := ih (rnd + 1)
        { st with debate := st.debate ++ respondBatch ai rname st rnd }
        (by omega) (by omega) (by omega)
      simp only [ih2]
      conv_rhs => rw [show r - rnd + 1 = (r - (rnd + 1) + 1) + 1 from by omega,
        respondListFrom]
      rfl

/-- C3: quitting the round gate at a non-final round r (1 ≤ r < R) makes the
state machine run the consensus step at round index r + 1 immediately, and
no respond round with index above r is ever executed. -/
theorem c3_early_termination (ai : List (String × ProviderImpl))
    (rname : String → String) (st : SessionState) (r R : Nat)
    (h1 : 1 ≤ r) (h2 : r < R) :
    (phaseB_debate ai rname (gateQuitAt r) R st).1
      = (1, RType.critique) :: respondListFrom 2 (r - 1)
          ++ [(r + 1, RType.consensus)]
    ∧ ∀ e ∈ (phaseB_debate ai rname (gateQuitAt r) R st).1,
        e.2 = RType.respond → e.1 ≤ r := by
  have hmain : (phaseB_debate ai rname (gateQuitAt r) R st).1
      = (1, RType.critique) :: respondListFrom 2 (r - 1)
          ++ [(r + 1, RType.consensus)] := by
    unfold phaseB_debate
    have hsp : List.range' 1 R = 1 :: List.range' 2 (R - 1) := by
      rw [show R = (R - 1) + 1 from by omega, List.range'_succ]
      simp
    rw [hsp, phaseBLoop]
    rw [if_pos rfl, if_neg (by omega : ¬ (1 : Nat) = R)]
    by_cases hr1 : r = 1
    · subst hr1
      have hgate : Gate.ask_round (gateQuitAt 1 1) = "q" := by
        rw [show gateQuitAt 1 1 = some "q" from by simp [gateQuitAt]]
        exact ask_round_q
      rw [if_pos hgate]
      cases hc : round_consensus ai rname
          { st with debate := st.debate ++ critiqueBatch ai rname st 1 } 2 <;>
        simp [hc, respondListFrom]
    · have hgate : ¬ Gate.ask_round (gateQuitAt r 1) = "q" := by
        rw [show gateQuitAt r 1 = some "" from by simp [gateQuitAt, Ne.symm hr1]]
        rw [ask_round_empty]
        simp
      rw [if_neg hgate]
      have ih2 := phaseBLoop_quitAt ai rname R r h2 (R - 1) 2
        { st with debate := st.debate ++ critiqueBatch ai rname st 1 }
        (by omega) (by omega) (by omega)
      simp only [ih2]
      rw [show r - 2 + 1 = r - 1 from by omega]
      rfl
  refine ⟨hmain, ?_⟩
  intro e he hresp
  rw [hmain] at he
  rcases List.mem_cons.mp he with rfl | he
  · exact absurd hresp (by simp)
  rcases List.mem_append.mp he with he | he
  · have h4 := respondListFrom_mem (r - 1) 2 e he
    omega
  · rw [List.mem_singleton] at he
    subst he
    exact absurd hresp (by simp)

/-- C3 witness: quitting at round 2 of 4 runs critique, one respond round,
then consensus at round 3. -/
theorem c3_early_termination_witness :
    (phaseB_debate [("claude", demoOk)] demoRname (gateQuitAt 2) 4 stB).1
      = (1, RType.critique) :: respondListFrom 2 1 ++ [(3, RType.consensus)] :=
  (c3_early_termination [("claude", demoOk)] demoRname stB 2 4 (by decide)
    (by decide)).1

/-- C7 counterexample: a configured, active provider whose both call paths
fail makes the unguarded consensus synthesis raise, and the error escapes
the debate phase — a fatal condition that is neither zero enabled providers
at startup nor an explicit user abort. -/
theorem c7_fatal_counterexample :
    (phaseB_debate [("claude", demoFail)] demoRname allProceed 2 stB).2
      = Except.error "CLI down" := rfl

/-- C7 amended: a configuration whose providers are all disabled fails
orchestrator construction with a configuration error before any phase runs
and no file is written, whatever the phases would have written; however,
zero enabled providers at startup and user abort are not the only fatal
conditions, because an unguarded lead synthesis call whose primary and
fallback both fail escapes its phase. -/
theorem c7_zero_enabled_fatal (env : String → Option String)
    (net : String → NetOracle) (roleOf : String → Option String)
    (provs : List (String × ProviderConfig))
    (h : ∀ p ∈ provs, p.2.enabled = false) :
    orchestratorInit env net roleOf provs
      = Except.error "활성화된 AI 프로바이더가 없습니다."
    ∧ ∀ runPhases : List (String × ProviderImpl) → List (String × String),
        mainFiles env net roleOf provs runPhases = [] := by
  have hempty : initProviders env net roleOf provs = [] := by
    rw [initProviders, List.filterMap_eq_nil_iff]
    intro nc hnc
    rw [h nc hnc]
    rfl
  have hinit : orchestratorInit env net roleOf provs
      = Except.error "활성화된 AI 프로바이더가 없습니다." := by
    unfold orchestratorInit
    simp only [hempty]
    rfl
  refine ⟨hinit, ?_⟩
  intro runPhases
  unfold mainFiles
  rw [hinit]

/-- C7 witness: one disabled provider in the configuration; even a phase
driver that would write the final report writes nothing. -/
theorem c7_zero_enabled_fatal_witness :
    orchestratorInit envNone netEx (fun _ => none) [("claude", cfgDisabled)]
      = Except.error "활성화된 AI 프로바이더가 없습니다."
    ∧ mainFiles envNone netEx (fun _ => none) [("claude", cfgDisabled)]
        (fun _ => [("FINAL-REPORT.md", "보고서")]) = [] := by
  have h := c7_zero_enabled_fatal envNone netEx (fun _ => none)
    [("claude", cfgDisabled)] ?_
  · exact ⟨h.1, h.2 (fun _ => [("FINAL-REPORT.md", "보고서")])⟩
  · intro p hp
    rcases List.mem_cons.mp hp with rfl | hp
    · rfl
    · cases hp

/-- The phaseC topic loop persists only the state it was given. -/
theorem phaseCLoop_persisted (ai : List (String × ProviderImpl))
    (st : SessionState) (gate : Nat → Option String) (total : Nat) :
    ∀ (topics : List String) (i : Nat)
      (pr : List SessionState × List (String × String)),
    phaseCLoop ai st gate total topics i = Except.ok pr →
    pr.1 = List.replicate pr.1.length st := by
  intro topics
  induction topics with
  | nil =>
    intro i pr h
    rw [phaseCLoop] at h
    injection h with h2
    subst h2
    rfl
  | cons t rest ih =>
    intro i pr h
    rw [phaseCLoop] at h
    cases hf : focused ai st t i with
    | error e => simp only [hf] at h; exact Except.noConfusion h
    | ok fs =>
      simp only [hf] at h
      by_cases hi : i < total
      · rw [if_pos hi] at h
        by_cases hg : Gate.ask_round (gate i) = "q"
        · rw [if_pos hg] at h
          injection h with h2
          subst h2
          rfl
        · rw [if_neg hg] at h
          cases hrec : phaseCLoop ai st gate total rest (i + 1) with
          | error e => simp only [hrec] at h; exact Except.noConfusion h
          | ok pr2 =>
            simp only [hrec] at h
            injection h with h2
            subst h2
            have h3 := ih (i + 1) pr2 hrec
            show st :: pr2.1 = List.replicate (st :: pr2.1).length st
            rw [List.length_cons, List.replicate_succ]
            exact congrArg (st :: ·) h3
      · rw [if_neg hi] at h
        injection h with h2
        subst h2
        rfl

/-- C10: the extra phase leaves every session-state field unchanged — the
research mapping, the debate sequence and the consensus after the phase
equal their values before it — and every snapshot persisted during the
phase equals the incoming state, so the persisted state carries no
extra-phase content; topic opinions and syntheses go only to artifact
files. -/
theorem c10_extra_phase_frame (ai : List (String × ProviderImpl))
    (st : SessionState) (topics : List String) (gate : Nat → Option String)
    (out : ExtraOut) (h : phaseC_extra ai st topics gate = Except.ok out) :
    out.state.research = st.research ∧ out.state.debate = st.debate
    ∧ out.state.consensus = st.consensus
    ∧ out.persisted = List.replicate out.persisted.length st := by
  unfold phaseC_extra at h
  cases hl : phaseCLoop ai st gate topics.length topics 1 with
  | error e => simp only [hl] at h; exact Except.noConfusion h
  | ok pr =>
    simp only [hl] at h
    injection h with h2
    subst h2
    exact ⟨rfl, rfl, rfl,
      phaseCLoop_persisted ai st gate topics.length topics 1 pr hl⟩

/-- C10 witness: a concrete one-topic extra phase. -/
theorem c10_extra_phase_frame_witness :
    extraOutEx.state.research = stB.research
    ∧ extraOutEx.state.debate = stB.debate
    ∧ extraOutEx.state.consensus = stB.consensus
    ∧ extraOutEx.persisted = List.replicate extraOutEx.persisted.length stB :=
  c10_extra_phase_frame [("claude", demoOk)] stB ["추가 주제"] allProceed
    extraOutEx rfl
